import Mathlib

/-!
# Verification of the AMRITDHARA time-series charting core

Shallow embedding of the `TimeSeriesChart` React component
(`src/unnamed/part_002`): the trend estimator (`calculateTrendline`),
the render-model builder (`chartData`), the interaction handlers
(`handleSeriesToggle`, `handleResetZoom`) and the CSV export engine
(`handleExportCSV`), together with theorems checking the specification's
claims about them.

Modelling conventions:
* JavaScript numbers are modelled by `JsNum`: a finite rational, or the
  non-finite marker `nonfin` standing for `NaN` and `±Infinity`
  collectively.  The component never distinguishes the non-finite values
  from each other: every arithmetic operation it performs on a non-finite
  operand again yields a non-finite result (the only JS operations that
  can turn a non-finite operand into a finite result, such as dividing a
  finite number by an infinity, never occur in this component — the only
  divisors it uses are the point count `n` and the index-derived
  regression denominator, both always finite).
* `x` values (`number | Date | string` in the source) are modelled by
  `XVal`; the component only ever consumes them via JS stringification
  (`toISOString()` for dates, `String(x)` otherwise), mirrored by
  `XVal.toStr`.  Numeric `x` values are modelled as integers, for which
  Lean's `toString` agrees with JS `String(x)`.
* JS string comparison (`Array.prototype.sort` with no comparator) is
  lexicographic on UTF-16 code units; `charsLe` mirrors it on the
  character lists (identical on the BMP code points used here).
* `theme.palette.primary.main` / `theme.palette.secondary.main` are
  opaque colour strings passed in as parameters `themePrimary` /
  `themeSecondary`.
-/

/-- A JavaScript number: a finite rational, or non-finite (`NaN`/`±Infinity`). -/
inductive JsNum where
  | fin : ℚ → JsNum
  | nonfin : JsNum
deriving DecidableEq, Repr

/-- JS `+`: finite on finite operands, non-finite otherwise. -/
def JsNum.add : JsNum → JsNum → JsNum
  | .fin a, .fin b => .fin (a + b)
  | _, _ => .nonfin

/-- JS `-`: finite on finite operands, non-finite otherwise. -/
def JsNum.sub : JsNum → JsNum → JsNum
  | .fin a, .fin b => .fin (a - b)
  | _, _ => .nonfin

/-- JS `*`: finite on finite operands, non-finite otherwise. -/
def JsNum.mul : JsNum → JsNum → JsNum
  | .fin a, .fin b => .fin (a * b)
  | _, _ => .nonfin

/-- JS `/`: finite on finite operands with non-zero divisor (JS division by
zero yields `±Infinity`/`NaN`, i.e. non-finite); with a non-finite operand
the result is non-finite (the component never divides by a non-finite or
zero value, so the collapsed cases are unreachable in it). -/
def JsNum.div : JsNum → JsNum → JsNum
  | .fin a, .fin b => if b = 0 then .nonfin else .fin (a / b)
  | _, _ => .nonfin

/-- JS `String(y)` for a number `y` as used by the CSV export; integer-valued
finite numbers print as in JS, `NaN` prints as `"NaN"`. -/
def JsNum.str : JsNum → String
  | .fin q => toString q
  | .nonfin => "NaN"

/-- The `x` coordinate of a `DataPoint` (`number | Date | string`). -/
inductive XVal where
  | num : ℤ → XVal
  | date : String → XVal
  | str : String → XVal
deriving DecidableEq, Repr

/-- JS stringification of an `x` value as the export performs it:
`point.x instanceof Date ? point.x.toISOString() : String(point.x)`
(a `date` carries its ISO string). -/
def XVal.toStr : XVal → String
  | .num n => toString n
  | .date iso => iso
  | .str s => s

/-- `DataPoint` interface from the source: `{ x, y }`. -/
structure DataPoint where
  x : XVal
  y : JsNum
deriving DecidableEq, Repr

/-- `'line' | 'bar' | 'scatter'` series type. -/
inductive SType where
  | line | bar | scatter
deriving DecidableEq, Repr

/-- `'line' | 'bar'` chart type (component state `chartType`). -/
inductive CType where
  | line | bar
deriving DecidableEq, Repr

/-- A chart-level type used where the source writes `s.type || chartType`. -/
def CType.toSType : CType → SType
  | .line => .line
  | .bar => .bar

/-- `DataSeries` interface from the source. -/
structure DataSeries where
  id : String
  label : String
  data : List DataPoint
  color : Option String
  hidden : Option Bool
  type : Option SType
  fill : Option Bool
  tension : Option ℚ
  borderWidth : Option ℚ
  pointRadius : Option ℚ
  yAxisID : Option String
deriving DecidableEq, Repr

/-- JS `o || d` for an optional number (`undefined` and `0` are falsy). -/
def jsOrNum (o : Option ℚ) (d : ℚ) : ℚ :=
  match o with
  | none => d
  | some q => if q = 0 then d else q

/-- JS `o || d` for an optional string (`undefined` and `""` are falsy). -/
def jsOrStr (o : Option String) (d : String) : String :=
  match o with
  | none => d
  | some s => if s = "" then d else s

/-- JS `o || d` for an optional boolean (`undefined` and `false` are falsy). -/
def jsOrBool (o : Option Bool) (d : Bool) : Bool :=
  match o with
  | none => d
  | some b => if b then true else d

/-- JS truthiness of an optional string (used for `s.color ? _ : _`). -/
def jsTruthyStr (o : Option String) : Bool :=
  match o with
  | none => false
  | some s => !(s = "")

/-- The value of a truthy optional string (only used under `jsTruthyStr`). -/
def optStrVal (o : Option String) : String :=
  match o with
  | none => ""
  | some s => s

/-! ## Trend estimator (`calculateTrendline`, source lines 430–452)

The local `let` bindings of the source are lifted to top-level definitions
so the regression coefficients can be named in theorem statements.  The
independent variable is the point's sequence index
(`const xValues = data.map((point, index) => index)`), always a finite JS
number, so the index-only sums are modelled directly in `ℚ`. -/

/-- `const n = xValues.length`. -/
def trendN (data : List DataPoint) : ℚ := data.length

/-- `const sumX = xValues.reduce((a, b) => a + b, 0)` — indices are finite. -/
def trendSumX (data : List DataPoint) : ℚ :=
  ((List.range data.length).map (fun i => (i : ℚ))).foldl (· + ·) 0

/-- `const sumY = yValues.reduce((a, b) => a + b, 0)`. -/
def trendSumY (data : List DataPoint) : JsNum :=
  (data.map (·.y)).foldl JsNum.add (.fin 0)

/-- `const sumXY = xValues.reduce((a, b, i) => a + b * yValues[i], 0)`. -/
def trendSumXY (data : List DataPoint) : JsNum :=
  ((List.range data.length).zip (data.map (·.y))).foldl
    (fun a p => a.add ((JsNum.fin p.1).mul p.2)) (.fin 0)

/-- `const sumXX = xValues.reduce((a, b) => a + b * b, 0)` — indices are finite. -/
def trendSumXX (data : List DataPoint) : ℚ :=
  ((List.range data.length).map (fun i => (i : ℚ) * i)).foldl (· + ·) 0

/-- `const slope = (n * sumXY - sumX * sumY) / (n * sumXX - sumX * sumX)`. -/
def trendSlope (data : List DataPoint) : JsNum :=
  (((JsNum.fin (trendN data)).mul (trendSumXY data)).sub
      ((JsNum.fin (trendSumX data)).mul (trendSumY data))).div
    (.fin (trendN data * trendSumXX data - trendSumX data * trendSumX data))

/-- `const intercept = (sumY - slope * sumX) / n`. -/
def trendIntercept (data : List DataPoint) : JsNum :=
  ((trendSumY data).sub ((trendSlope data).mul (.fin (trendSumX data)))).div
    (.fin (trendN data))

/-- `calculateTrendline` (source lines 430–452): fewer than two points yields
`[]`; otherwise each input point is mapped to `{ x: point.x, y: slope * index
+ intercept }`. -/
def calculateTrendline (data : List DataPoint) : List DataPoint :=
  if data.length < 2 then []
  else
    data.enum.map (fun pi =>
      ⟨pi.2.x, ((trendSlope data).mul (.fin (pi.1 : ℚ))).add (trendIntercept data)⟩)

/-! ## Render model builder (`chartData`, source lines 455–501) -/

/-- One entry of `chartData.datasets`.  Fields absent on one of the two
object shapes in the source (`pointHoverRadius` on trend datasets,
`borderDash` on primary datasets) are `Option`s, `none` meaning the field
is absent. -/
structure ChartDataset where
  label : String
  data : List DataPoint
  borderColor : String
  backgroundColor : String
  borderWidth : ℚ
  pointRadius : ℚ
  pointHoverRadius : Option ℚ
  tension : ℚ
  fill : Bool
  yAxisID : String
  type : SType
  borderDash : Option (List ℕ)
deriving DecidableEq, Repr

/-- The primary dataset built for one visible series (source lines 458–475). -/
def mkPrimaryDataset (themePrimary : String) (chartType : CType)
    (s : DataSeries) : ChartDataset :=
  { label := s.label
    data := s.data.map (fun point => ⟨point.x, point.y⟩)
    borderColor := jsOrStr s.color themePrimary
    backgroundColor :=
      (if jsTruthyStr s.color then optStrVal s.color else themePrimary) ++
        (if s.type = some .bar then "CC" else "33")
    borderWidth := jsOrNum s.borderWidth 2
    pointRadius := jsOrNum s.pointRadius 3
    pointHoverRadius := some (jsOrNum s.pointRadius 3 + 2)
    tension := jsOrNum s.tension (1/10)
    fill := jsOrBool s.fill false
    yAxisID := jsOrStr s.yAxisID "y"
    type := match s.type with
      | some t => t
      | none => chartType.toSType
    borderDash := none }

/-- The trend dataset built for one visible series when the trendline is
shown (source lines 481–498). -/
def mkTrendDataset (themeSecondary : String) (s : DataSeries) : ChartDataset :=
  { label := s.label ++ " (Trend)"
    data := calculateTrendline s.data
    borderColor :=
      (if jsTruthyStr s.color then optStrVal s.color else themeSecondary) ++ "99"
    backgroundColor := "transparent"
    borderWidth := 2
    pointRadius := 0
    pointHoverRadius := none
    tension := 0
    fill := false
    yAxisID := jsOrStr s.yAxisID "y"
    type := .line
    borderDash := some [5, 5] }

/-- `chartData.datasets` (source lines 455–501): the visible series' primary
datasets, followed — when `showTrendline` — by one trend dataset per visible
series. -/
def chartDataDatasets (themePrimary themeSecondary : String) (chartType : CType)
    (showTrendline : Bool) (visibleSeries : List String)
    (series : List DataSeries) : List ChartDataset :=
  (series.filter (fun s => decide (s.id ∈ visibleSeries))).map
      (mkPrimaryDataset themePrimary chartType) ++
    (if showTrendline then
      (series.filter (fun s => decide (s.id ∈ visibleSeries))).map
        (mkTrendDataset themeSecondary)
    else [])

/-! ## Interaction controller -/

/-- Initial visible-series state (source lines 295–299):
`series.filter(s => !s.hidden).map(s => s.id)`. -/
def initVisibleSeries (series : List DataSeries) : List String :=
  (series.filter (fun s => !jsOrBool s.hidden false)).map (·.id)

/-- `handleSeriesToggle` (source lines 315–323): remove the id if present,
append it otherwise. -/
def handleSeriesToggle (seriesId : String) (prev : List String) : List String :=
  if seriesId ∈ prev then prev.filter (fun id => decide (id ≠ seriesId))
  else prev ++ [seriesId]

/-- The `{ start, end }` range reported to `onRangeChange`; a `none`
component is the source's `null`.  Timestamps are modelled as integers. -/
structure TimeRange where
  start : Option ℤ
  «end» : Option ℤ
deriving DecidableEq, Repr

/-- State held by the chart.js instance that the component manipulates
through the library's zoom surface; `zoomedRange = none` is full extent.
Modelled from the spec: the rendering surface is an external library whose
`resetZoom()` capability clears the zoomed range (spec §4.5, §9). -/
structure ChartJSState where
  zoomedRange : Option (ℤ × ℤ)
deriving DecidableEq, Repr

/-- The library call `chartInstance.resetZoom()`. -/
def resetZoomLib (_c : ChartJSState) : ChartJSState :=
  { zoomedRange := none }

/-- The component state involved in zoom reset: the mounted chart instance
(`chartInstance`, `null` before mount) and the `isZoomed` flag. -/
structure ZoomUIState where
  chartInstance : Option ChartJSState
  isZoomed : Bool
deriving DecidableEq, Repr

/-- `handleResetZoom` (source lines 331–344): when a chart instance exists,
reset the library zoom, clear `isZoomed`, and notify `onRangeChange` with
`{start: null, end: null}`; otherwise do nothing.  The returned list holds
the range-change notifications emitted (the source guards the call on the
callback being supplied). -/
def handleResetZoom (s : ZoomUIState) : ZoomUIState × List TimeRange :=
  match s.chartInstance with
  | some c =>
    ({ chartInstance := some (resetZoomLib c), isZoomed := false },
      [{ start := none, «end» := none }])
  | none => (s, [])

/-- The Reset-Zoom button as wired in the component (source lines 853–861):
`disabled={!isZoomed}`, so a click only reaches `handleResetZoom` while
zoomed. -/
def resetZoomClick (s : ZoomUIState) : ZoomUIState × List TimeRange :=
  if s.isZoomed then handleResetZoom s else (s, [])

/-! ## CSV export engine (`handleExportCSV`, source lines 378–427) -/

/-- Lexicographic comparison of character lists by code point, mirroring the
comparator JS `Array.prototype.sort()` applies to strings. -/
def charsLe : List Char → List Char → Bool
  | [], _ => true
  | _ :: _, [] => false
  | a :: as, b :: bs =>
    if a.toNat < b.toNat then true
    else if b.toNat < a.toNat then false
    else charsLe as bs

/-- JS default string ordering (`a <= b` under the default sort comparator). -/
def strLe (a b : String) : Bool := charsLe a.data b.data

/-- The set `allXValues`: every point's stringified `x`, deduplicated (JS
`Set` semantics; only membership matters, since the list is sorted next). -/
def collectXStrings (series : List DataSeries) : List String :=
  (series.flatMap (fun s => s.data.map (fun point => point.x.toStr))).dedup

/-- `const sortedXValues = Array.from(allXValues).sort()`. -/
def sortedXValues (series : List DataSeries) : List String :=
  (collectXStrings series).insertionSort (fun a b => strLe a b)

/-- The header cells `Date, {series label}...` of the CSV. -/
def csvHeaderCells (series : List DataSeries) : List String :=
  "Date" :: series.map (·.label)

/-- The CSV header row string (source line 396). -/
def csvHeader (series : List DataSeries) : String :=
  String.intercalate "," (csvHeaderCells series) ++ "\n"

/-- One series' cell at one x string (source lines 402–407): the first point
whose stringified `x` matches, as a string, else the empty string. -/
def cellFor (s : DataSeries) (xValue : String) : String :=
  match s.data.find? (fun p => decide (p.x.toStr = xValue)) with
  | some point => point.y.str
  | none => ""

/-- One CSV data row (source lines 399–410): the x value followed by one
cell per series. -/
def csvRow (series : List DataSeries) (xValue : String) : List String :=
  xValue :: series.map (fun s => cellFor s xValue)

/-- All CSV data rows, in output order. -/
def csvRows (series : List DataSeries) : List (List String) :=
  (sortedXValues series).map (csvRow series)

/-- The accumulated data-row text (`csv += row.join(',') + '\n'`). -/
def csvBody (series : List DataSeries) : String :=
  (csvRows series).foldl (fun acc row => acc ++ String.intercalate "," row ++ "\n") ""

/-- `handleExportCSV` (source lines 378–427): `none` models the early
`return` (no blob created, `onExport` not invoked); `some csv` is the text
passed both to the blob and to `onExport('csv', csv)`. -/
def handleExportCSV (series : List DataSeries) : Option String :=
  if series.length = 0 then none
  else some (csvHeader series ++ csvBody series)

/-! ## Ordering lemmas for the JS string sort -/

/-- `charsLe` is total. -/
theorem charsLe_total : ∀ as bs : List Char, charsLe as bs = true ∨ charsLe bs as = true := by
  intro as
  induction as with
  | nil => intro bs; left; rfl
  | cons a as ih =>
    intro bs
    cases bs with
    | nil => right; rfl
    | cons b bs =>
      simp only [charsLe]
      rcases Nat.lt_trichotomy a.toNat b.toNat with h | h | h
      · left; simp [h]
      · have h1 : ¬ a.toNat < b.toNat := by omega
        have h2 : ¬ b.toNat < a.toNat := by omega
        simpa [h1, h2] using ih bs
      · right; simp [h]

/-- `charsLe` is transitive. -/
theorem charsLe_trans :
    ∀ as bs cs : List Char,
      charsLe as bs = true → charsLe bs cs = true → charsLe as cs = true := by
  intro as
  induction as with
  | nil => intro bs cs _ _; rfl
  | cons a as ih =>
    intro bs cs hab hbc
    cases bs with
    | nil => simp [charsLe] at hab
    | cons b bs =>
      cases cs with
      | nil => simp [charsLe] at hbc
      | cons c cs =>
        simp only [charsLe] at hab hbc ⊢
        by_cases h1 : a.toNat < b.toNat
        · by_cases h2 : b.toNat < c.toNat
          · have : a.toNat < c.toNat := by omega
            simp [this]
          · by_cases h3 : c.toNat < b.toNat
            · simp [h2, h3] at hbc
            · have : a.toNat < c.toNat := by omega
              simp [this]
        · by_cases h4 : b.toNat < a.toNat
          · simp [h1, h4] at hab
          · by_cases h2 : b.toNat < c.toNat
            · have : a.toNat < c.toNat := by omega
              simp [this]
            · by_cases h3 : c.toNat < b.toNat
              · simp [h2, h3] at hbc
              · have g1 : ¬ a.toNat < c.toNat := by omega
                have g2 : ¬ c.toNat < a.toNat := by omega
                simp only [if_neg h1, if_neg h4] at hab
                simp only [if_neg h2, if_neg h3] at hbc
                simp only [if_neg g1, if_neg g2]
                exact ih bs cs hab hbc

instance : IsTotal String (fun a b => strLe a b = true) :=
  ⟨fun a b => charsLe_total a.data b.data⟩

instance : IsTrans String (fun a b => strLe a b = true) :=
  ⟨fun a b c => charsLe_trans a.data b.data c.data⟩

/-! ## Toggle helper lemmas -/

/-- Toggling an id flips that id's own membership. -/
theorem mem_toggle_self (seriesId : String) (prev : List String) :
    seriesId ∈ handleSeriesToggle seriesId prev ↔ seriesId ∉ prev := by
  rw [handleSeriesToggle]
  by_cases hid : seriesId ∈ prev
  · rw [if_pos hid]
    simp [List.mem_filter, hid]
  · rw [if_neg hid]
    simp [hid]

/-- Toggling an id leaves every other id's membership unchanged. -/
theorem mem_toggle_ne (a seriesId : String) (prev : List String) (h : a ≠ seriesId) :
    (a ∈ handleSeriesToggle seriesId prev) ↔ a ∈ prev := by
  rw [handleSeriesToggle]
  by_cases hid : seriesId ∈ prev
  · rw [if_pos hid]
    simp [List.mem_filter, h]
  · rw [if_neg hid]
    simp [h]

/-! ## Concrete fixtures used by the claims -/

/-- A series with every optional field absent, as a caller typically supplies. -/
def mkSeries (id label : String) (data : List DataPoint) : DataSeries :=
  { id := id, label := label, data := data, color := none, hidden := none,
    type := none, fill := none, tension := none, borderWidth := none,
    pointRadius := none, yAxisID := none }

/-- The spec's trend-correctness fixture `[(0,1),(1,2),(2,3),(3,4)]`. -/
def data4 : List DataPoint :=
  [⟨.num 0, .fin 1⟩, ⟨.num 1, .fin 2⟩, ⟨.num 2, .fin 3⟩, ⟨.num 3, .fin 4⟩]

/-- Series A of the union-export fixture: x-values {1, 2}. -/
def seriesA1 : DataSeries :=
  mkSeries "a" "A" [⟨.num 1, .fin 10⟩, ⟨.num 2, .fin 20⟩]

/-- Series B of the union-export fixture: x-values {2, 3}. -/
def seriesB1 : DataSeries :=
  mkSeries "b" "B" [⟨.num 2, .fin 200⟩, ⟨.num 3, .fin 300⟩]

/-- A series whose numeric x-values 2 and 10 order differently as numbers
and as strings. -/
def seriesNumSort : DataSeries :=
  mkSeries "a" "A" [⟨.num 2, .fin 5⟩, ⟨.num 10, .fin 7⟩]

/-- A series with no data points. -/
def seriesEmpty : DataSeries := mkSeries "a" "A" []

/-- A series with a single data point (degenerate for the regression). -/
def series1pt : DataSeries := mkSeries "a" "A" [⟨.num 0, .fin 5⟩]

/-- A series with one non-finite y among otherwise valid points. -/
def seriesNaN : DataSeries :=
  mkSeries "a" "A" [⟨.num 0, .fin 1⟩, ⟨.num 1, .nonfin⟩, ⟨.num 2, .fin 3⟩]

/-! ## Claims -/

/-- Claim C1: for every data list with at least 2 points, `calculateTrendline`
returns a list of the same length whose i-th point keeps the input's x value
and has y = slope·i + intercept, with `trendSlope`/`trendIntercept` the
ordinary-least-squares coefficients over the sequence indices; in particular
on y-values [1,2,3,4] the slope is 1 and the intercept is 1, so the output
equals the input exactly. -/
theorem calculateTrendline_ols_spec (data : List DataPoint) (h : 2 ≤ data.length) :
    (calculateTrendline data).length = data.length
    ∧ (∀ (i : ℕ) (p : DataPoint), data[i]? = some p →
        (calculateTrendline data)[i]? =
          some (DataPoint.mk p.x
            (((trendSlope data).mul (.fin (i : ℚ))).add (trendIntercept data))))
    ∧ trendSlope data4 = .fin 1
    ∧ trendIntercept data4 = .fin 1
    ∧ calculateTrendline data4 = data4 := by
  refine ⟨?_, ?_, ?_, ?_, ?_⟩
  · rw [calculateTrendline, if_neg (by omega)]
    simp
  · intro i p hp
    rw [calculateTrendline, if_neg (by omega)]
    simp [List.getElem?_enum, hp]
  · norm_num [trendSlope, trendN, trendSumX, trendSumXY, trendSumXX, trendSumY,
      data4, List.range, List.range.loop, JsNum.mul, JsNum.add, JsNum.sub, JsNum.div]
  · norm_num [trendIntercept, trendSlope, trendN, trendSumX, trendSumXY, trendSumXX,
      trendSumY, data4, List.range, List.range.loop, JsNum.mul, JsNum.add, JsNum.sub,
      JsNum.div]
  · norm_num [calculateTrendline, trendIntercept, trendSlope, trendN, trendSumX,
      trendSumXY, trendSumXX, trendSumY, data4, List.range, List.range.loop,
      JsNum.mul, JsNum.add, JsNum.sub, JsNum.div, List.enum]

/-- Witness for C1: the theorem applied to the spec's four-point fixture. -/
theorem calculateTrendline_ols_spec_witness :
    (calculateTrendline data4).length = data4.length :=
  (calculateTrendline_ols_spec data4 (by decide)).1

/-- Claim C2 counterexample: the code keys and sorts rows by the *string*
form of x (JS default `sort()`), so for numeric x-values 2 and 10 the x=10
row precedes the x=2 row — not ascending by x as the claim states. -/
theorem csvRows_numeric_sort_counterexample :
    csvRows [seriesNumSort] = [["10", "7"], ["2", "5"]]
      ∧ csvRows [seriesNumSort] ≠ [["2", "5"], ["10", "7"]] := by
  decide

/-- Claim C2 (amended): the export produces one row per distinct stringified
x value (union over all series), sorted ascending in the lexicographic
string order `strLe`; a series' cell is the empty string at every x-string
at which it has no point; on the A/B fixture it produces exactly 3 rows
with A blank at x=3 and B blank at x=1. -/
theorem csv_export_rows_spec (series : List DataSeries) :
    List.Sorted (fun a b => strLe a b = true) (sortedXValues series)
    ∧ (sortedXValues series).Nodup
    ∧ (∀ x, x ∈ sortedXValues series ↔ ∃ s ∈ series, ∃ p ∈ s.data, p.x.toStr = x)
    ∧ (csvRows series).length = (collectXStrings series).length
    ∧ (∀ (s : DataSeries) (x : String),
        (∀ p ∈ s.data, p.x.toStr ≠ x) → cellFor s x = "")
    ∧ csvRows [seriesA1, seriesB1]
        = [["1", "10", ""], ["2", "20", "200"], ["3", "", "300"]]
    ∧ handleExportCSV [seriesA1, seriesB1]
        = some "Date,A,B\n1,10,\n2,20,200\n3,,300\n" := by
  refine ⟨List.sorted_insertionSort _ _,
    ((List.perm_insertionSort _ _).nodup_iff).mpr (List.nodup_dedup _),
    ?_, ?_, ?_, by decide, by decide⟩
  · intro x
    rw [sortedXValues, (List.perm_insertionSort _ _).mem_iff, collectXStrings,
      List.mem_dedup]
    simp
  · rw [csvRows, List.length_map, sortedXValues,
      (List.perm_insertionSort _ _).length_eq]
  · intro s x h
    rw [cellFor, List.find?_eq_none.mpr]
    intro p hp
    simpa using h p hp

/-- Witness for C2: series B's cell is blank at x-string "1". -/
theorem csv_export_rows_spec_witness : cellFor seriesB1 "1" = "" :=
  (csv_export_rows_spec [seriesA1, seriesB1]).2.2.2.2.1 seriesB1 "1" (by decide)

/-- Claim C3 counterexample: a visible one-point series with the trendline
enabled yields a RenderModel that *does* contain a trend dataset for it
(labelled "A (Trend)", with an empty data list) — the entry is not omitted. -/
theorem trend_dataset_present_counterexample :
    ((chartDataDatasets "P" "S" .line true ["a"] [series1pt]).map (·.label))
        = ["A", "A (Trend)"]
      ∧ ((chartDataDatasets "P" "S" .line true ["a"] [series1pt]).map (·.data))
        = [[⟨.num 0, .fin 5⟩], []]
      ∧ ¬ (∀ d ∈ chartDataDatasets "P" "S" .line true ["a"] [series1pt],
            d.label ≠ "A (Trend)") := by
  decide

/-- Claim C3 (amended): fewer than 2 points yields no trend points (an empty
list, not an error); with the trendline enabled, the RenderModel still
contains the trend dataset entry for such a visible series, with an empty
data list. -/
theorem trend_degenerate_spec :
    (∀ data : List DataPoint, data.length < 2 → calculateTrendline data = [])
    ∧ (∀ (tp ts : String) (ct : CType) (vis : List String)
        (series : List DataSeries) (s : DataSeries),
        s ∈ series → s.id ∈ vis → s.data.length < 2 →
          mkTrendDataset ts s ∈ chartDataDatasets tp ts ct true vis series
          ∧ (mkTrendDataset ts s).data = []) := by
  have hempty : ∀ data : List DataPoint, data.length < 2 → calculateTrendline data = [] := by
    intro data h
    rw [calculateTrendline, if_pos h]
  refine ⟨hempty, ?_⟩
  intro tp ts ct vis series s hs hvis hlen
  constructor
  · rw [chartDataDatasets]
    refine List.mem_append_right _ ?_
    rw [if_pos rfl]
    exact List.mem_map.mpr ⟨s, List.mem_filter.mpr ⟨hs, by simpa using hvis⟩, rfl⟩
  · rw [mkTrendDataset]
    exact hempty s.data hlen

/-- Witness for C3: the degenerate one-point series' trend entry in the
concrete RenderModel. -/
theorem trend_degenerate_spec_witness :
    mkTrendDataset "S" series1pt ∈ chartDataDatasets "P" "S" CType.line true ["a"] [series1pt]
      ∧ (mkTrendDataset "S" series1pt).data = [] :=
  trend_degenerate_spec.2 "P" "S" CType.line ["a"] [series1pt] series1pt
    (by decide) (by decide) (by decide)

/-- Claim C4 counterexample: with only series "a" visible, the CSV export
still contains series B's label column and its value 200 — `handleExportCSV`
reads the full `series` list and never consults the visible-series set. -/
theorem csv_export_visibility_counterexample :
    ("b" ∉ (["a"] : List String))
      ∧ seriesB1.id = "b"
      ∧ handleExportCSV [seriesA1, seriesB1]
          = some "Date,A,B\n1,10,\n2,20,200\n3,,300\n"
      ∧ "B" ∈ csvHeaderCells [seriesA1, seriesB1]
      ∧ "200" ∈ csvRow [seriesA1, seriesB1] "2" := by
  decide

/-- Claim C4 (amended): the CSV export operates on the full supplied series
list regardless of the visible-series set — a series whose id is not visible
still contributes its label to the header and its values to the rows. -/
theorem csv_export_full_series_spec (series : List DataSeries) (vis : List String)
    (s : DataSeries) (hs : s ∈ series) (hvis : s.id ∉ vis) :
    s.label ∈ csvHeaderCells series
    ∧ (∀ (x : String) (p : DataPoint),
        s.data.find? (fun q => decide (q.x.toStr = x)) = some p →
          p.y.str ∈ csvRow series x) := by
  constructor
  · exact List.mem_cons_of_mem _ (List.mem_map.mpr ⟨s, hs, rfl⟩)
  · intro x p hp
    rw [csvRow]
    refine List.mem_cons_of_mem _ ?_
    refine List.mem_map.mpr ⟨s, hs, ?_⟩
    rw [cellFor, hp]

/-- Witness for C4: hidden series B's label is in the header cells. -/
theorem csv_export_full_series_spec_witness :
    seriesB1.label ∈ csvHeaderCells [seriesA1, seriesB1] :=
  (csv_export_full_series_spec [seriesA1, seriesB1] ["a"] seriesB1
    (by decide) (by decide)).1

/-- Claim C5: every dataset in the RenderModel — primary or trend — arises
from a series of the input whose id is in the visible-series set; hence no
dataset belongs to a series whose id is not visible. -/
theorem render_model_visibility_invariant (tp ts : String) (ct : CType) (st : Bool)
    (vis : List String) (series : List DataSeries) (d : ChartDataset)
    (hd : d ∈ chartDataDatasets tp ts ct st vis series) :
    ∃ s, s ∈ series ∧ s.id ∈ vis ∧
      (d = mkPrimaryDataset tp ct s ∨ d = mkTrendDataset ts s) := by
  rw [chartDataDatasets] at hd
  rcases List.mem_append.mp hd with h | h
  · rcases List.mem_map.mp h with ⟨s, hs, rfl⟩
    rcases List.mem_filter.mp hs with ⟨hs1, hs2⟩
    exact ⟨s, hs1, by simpa using hs2, Or.inl rfl⟩
  · rcases st with _ | _
    · simp at h
    · simp only [if_pos] at h
      rcases List.mem_map.mp h with ⟨s, hs, rfl⟩
      rcases List.mem_filter.mp hs with ⟨hs1, hs2⟩
      exact ⟨s, hs1, by simpa using hs2, Or.inr rfl⟩

/-- Witness for C5: the trend dataset of the one-point fixture arises from a
visible series. -/
theorem render_model_visibility_invariant_witness :
    ∃ s, s ∈ [series1pt] ∧ s.id ∈ (["a"] : List String) ∧
      (mkTrendDataset "S" series1pt = mkPrimaryDataset "P" CType.line s
        ∨ mkTrendDataset "S" series1pt = mkTrendDataset "S" s) :=
  render_model_visibility_invariant "P" "S" CType.line true ["a"] [series1pt]
    (mkTrendDataset "S" series1pt) (by decide)

/-- Claim C6 counterexample: toggling the id "zzz", which belongs to no
supplied series, changes the visible-series state from `[]` to `["zzz"]`
— it is not a no-op on the state as the claim requires. -/
theorem toggle_unknown_id_counterexample :
    "zzz" ∉ ([series1pt].map (·.id))
      ∧ handleSeriesToggle "zzz" [] = ["zzz"]
      ∧ handleSeriesToggle "zzz" [] ≠ [] := by
  decide

/-- Claim C6 (amended): toggling never throws (the handler is total) and
flips the toggled id's membership whether or not the id is known; for an id
belonging to no supplied series the RenderModel is nevertheless unchanged,
since no series matches the added id. -/
theorem toggle_unknown_id_spec :
    (∀ (prev : List String) (seriesId : String),
      seriesId ∈ handleSeriesToggle seriesId prev ↔ seriesId ∉ prev)
    ∧ (∀ (tp ts : String) (ct : CType) (st : Bool) (series : List DataSeries)
        (vis : List String) (seriesId : String),
        seriesId ∉ series.map (·.id) →
        chartDataDatasets tp ts ct st (handleSeriesToggle seriesId vis) series
          = chartDataDatasets tp ts ct st vis series) := by
  constructor
  · intro prev seriesId
    exact mem_toggle_self seriesId prev
  · intro tp ts ct st series vis seriesId h
    have hcongr : series.filter (fun s => decide (s.id ∈ handleSeriesToggle seriesId vis))
        = series.filter (fun s => decide (s.id ∈ vis)) := by
      apply List.filter_congr
      intro s hs
      have hne : s.id ≠ seriesId := by
        intro he
        exact h (he ▸ List.mem_map.mpr ⟨s, hs, rfl⟩)
      simp [mem_toggle_ne s.id seriesId vis hne]
    rw [chartDataDatasets, chartDataDatasets, hcongr]

/-- Witness for C6: toggling the unknown id "zzz" leaves the concrete
RenderModel unchanged. -/
theorem toggle_unknown_id_spec_witness :
    chartDataDatasets "P" "S" CType.line false (handleSeriesToggle "zzz" ["a"]) [series1pt]
      = chartDataDatasets "P" "S" CType.line false ["a"] [series1pt] :=
  toggle_unknown_id_spec.2 "P" "S" CType.line false [series1pt] ["a"] "zzz" (by decide)

/-- Claim C7 counterexample: the dataset built for a visible series with one
non-finite y keeps all three points, including the non-finite one — the
point is not omitted from the RenderModel. -/
theorem nonfinite_point_kept_counterexample :
    (chartDataDatasets "P" "S" .line false ["a"] [seriesNaN]).map (·.data)
        = [[⟨.num 0, .fin 1⟩, ⟨.num 1, .nonfin⟩, ⟨.num 2, .fin 3⟩]]
      ∧ (chartDataDatasets "P" "S" .line false ["a"] [seriesNaN]).map (·.data)
        ≠ [[⟨.num 0, .fin 1⟩, ⟨.num 2, .fin 3⟩]] := by
  decide

/-- Claim C7 (amended): building the RenderModel never crashes (the builder
is total) and passes every point through verbatim — a non-finite y value
stays in the dataset unchanged, and in particular is never turned into the
value zero; gap rendering is left to the charting library. -/
theorem nonfinite_passthrough_spec (tp : String) (ct : CType) (s : DataSeries) :
    (mkPrimaryDataset tp ct s).data = s.data
    ∧ (∀ p ∈ s.data, p.y = JsNum.nonfin →
        p ∈ (mkPrimaryDataset tp ct s).data ∧ p.y ≠ JsNum.fin 0) := by
  have hdata : (mkPrimaryDataset tp ct s).data = s.data := List.map_id s.data
  refine ⟨hdata, ?_⟩
  intro p hp hy
  refine ⟨hdata ▸ hp, ?_⟩
  rw [hy]
  intro hcontra
  exact JsNum.noConfusion hcontra

/-- Witness for C7: the NaN point of the fixture stays in the dataset. -/
theorem nonfinite_passthrough_spec_witness :
    (⟨.num 1, .nonfin⟩ : DataPoint) ∈ (mkPrimaryDataset "P" CType.line seriesNaN).data
      ∧ (JsNum.nonfin : JsNum) ≠ JsNum.fin 0 :=
  (nonfinite_passthrough_spec "P" CType.line seriesNaN).2
    ⟨.num 1, .nonfin⟩ (by decide) rfl

/-- Claim C8 counterexample: with one series that has an empty data list,
the export is not a no-op — a header-only CSV blob is produced and the
`onExport` callback receives it. -/
theorem export_empty_data_counterexample :
    handleExportCSV [seriesEmpty] = some "Date,A\n"
      ∧ handleExportCSV [seriesEmpty] ≠ none := by
  decide

/-- Claim C8 (amended): the CSV export is a silent no-op (no blob, no
callback) exactly when the series list is empty; any non-empty series list
— even with no data points and regardless of visibility, which the export
ignores — produces a CSV blob and invokes the callback with it. -/
theorem export_noop_spec :
    handleExportCSV [] = none
    ∧ (∀ series : List DataSeries, series ≠ [] →
        ∃ csv, handleExportCSV series = some csv) := by
  refine ⟨rfl, ?_⟩
  intro series h
  rw [handleExportCSV, if_neg (by simpa using h)]
  exact ⟨_, rfl⟩

/-- Witness for C8: the series list with one empty series yields a blob. -/
theorem export_noop_spec_witness :
    ∃ csv, handleExportCSV [seriesEmpty] = some csv :=
  export_noop_spec.2 [seriesEmpty] (by decide)

/-- Claim C9: clicking Reset Zoom while zoomed (with a mounted chart
instance) clears the zoomed range to full extent and emits exactly one
range-change notification `{start: null, end: null}`; at full extent the
button is disabled, so the click is a no-op — unchanged state and no
notification. -/
theorem reset_zoom_spec (s : ZoomUIState) :
    (s.isZoomed = true → ∀ c, s.chartInstance = some c →
      resetZoomClick s =
        ({ chartInstance := some { zoomedRange := none }, isZoomed := false },
          [{ start := none, «end» := none }]))
    ∧ (s.isZoomed = false → resetZoomClick s = (s, [])) := by
  constructor
  · intro hz c hc
    rw [resetZoomClick, if_pos hz, handleResetZoom, hc]
    rfl
  · intro hz
    rw [resetZoomClick, if_neg (by simp [hz])]

/-- Witness for C9: a concrete zoomed state resets with one notification. -/
theorem reset_zoom_spec_witness :
    resetZoomClick ⟨some ⟨some (0, 5)⟩, true⟩ =
      ({ chartInstance := some { zoomedRange := none }, isZoomed := false },
        [{ start := none, «end» := none }]) :=
  (reset_zoom_spec ⟨some ⟨some (0, 5)⟩, true⟩).1 rfl ⟨some (0, 5)⟩ rfl

/-- Claim C10: toggling the same id twice yields a visible-series state with
exactly the original membership; one toggle preserves the no-duplicates
invariant, which the initial state enjoys whenever the supplied series ids
are unique. -/
theorem toggle_involution_spec :
    (∀ (prev : List String) (seriesId x : String),
      x ∈ handleSeriesToggle seriesId (handleSeriesToggle seriesId prev) ↔ x ∈ prev)
    ∧ (∀ (prev : List String) (seriesId : String), prev.Nodup →
        (handleSeriesToggle seriesId prev).Nodup)
    ∧ (∀ series : List DataSeries, (series.map (·.id)).Nodup →
        (initVisibleSeries series).Nodup) := by
  refine ⟨?_, ?_, ?_⟩
  · intro prev seriesId x
    by_cases hx : x = seriesId
    · subst hx
      simp [mem_toggle_self, not_not]
    · rw [mem_toggle_ne x seriesId _ hx, mem_toggle_ne x seriesId _ hx]
  · intro prev seriesId h
    rw [handleSeriesToggle]
    by_cases hid : seriesId ∈ prev
    · rw [if_pos hid]
      exact h.filter _
    · rw [if_neg hid]
      simp only [List.nodup_append, List.nodup_cons, List.not_mem_nil, not_false_iff,
        List.nodup_nil, and_true, true_and]
      refine ⟨h, ?_⟩
      intro a ha hb
      simp at hb
      exact hid (hb ▸ ha)
  · intro series h
    rw [initVisibleSeries]
    exact h.sublist ((List.filter_sublist series).map (·.id))

/-- Witness for C10: the nodup invariant at a concrete state. -/
theorem toggle_involution_spec_witness :
    (handleSeriesToggle "b" ["a"]).Nodup :=
  toggle_involution_spec.2.1 ["a"] "b" (by decide)
